import Mathlib

/-
  Shallow embedding of the scoring core of backend/app.py (KAM rewards).
  Floats are modelled as exact rationals; SQL rows as immutable records;
  the month `date` keys as naturals ordered like the dates they stand for.
  Python exceptions raised inside `calc_scores` (the inline `ym_to_int`
  parser can raise ValueError) are modelled with `Except String`.
-/

namespace KamScore

/-- A key account manager row (table `kams`). -/
structure KAM where
  id : Nat
  name : String
  region : String
  deriving DecidableEq, Repr

/-- A project row (table `projects`); `kam_id` is the owning KAM. -/
structure Project where
  id : Nat
  kam_id : Nat
  code : String
  name : String
  deriving DecidableEq, Repr

/-- A monthly snapshot row (table `project_months`). -/
structure ProjectMonth where
  project_id : Nat
  month : Nat
  pp : ℚ
  lvp : ℚ
  sop_ym : String
  foc2026_pp : ℚ
  foc2026_sec : ℚ
  deriving DecidableEq, Repr

/-- A monthly target row (table `monthly_targets`). -/
structure MonthlyTarget where
  kam_id : Nat
  month : Nat
  target_pp : ℚ
  target_lvp : ℚ
  deriving DecidableEq, Repr

/-- The read-only database contents `calc_scores` consumes. -/
structure Store where
  kams : List KAM
  projects : List Project
  targets : List MonthlyTarget
  snapshots : List ProjectMonth
  deriving DecidableEq, Repr

/-- The pydantic `ScoreItem` response record, field for field. -/
structure ScoreItem where
  kam : String
  month : Nat
  points_gained_pp : ℚ
  points_gained_lvp : ℚ
  points_lost_sop_delay : ℚ
  points_lost_volume_dec : ℚ
  points_lost_pp_dec : ℚ
  total : ℚ
  deriving DecidableEq, Repr

/-- The cumulative dict `cumul`, as an association list built in KAM order. -/
abbrev Cumul := List (String × ℚ)

/-- Last element of `l` satisfying `p`, mirroring how repeated dict
insertion (`prev_proj_map[pid] = ...`) lets the last row win. -/
def lastFind? {α : Type} (p : α → Bool) (l : List α) : Option α :=
  l.foldl (fun acc x => if p x then some x else acc) none

/-- The sorted distinct month list (`sorted(select(func.distinct(...)))`). -/
def sortMonths (l : List Nat) : List Nat :=
  List.insertionSort (fun a b => a ≤ b) l.dedup

/-- Pair every month with its predecessor in the global sequence
(`months[mi - 1] if mi > 0 else None`). -/
def withPrev (l : List Nat) : List (Option Nat × Nat) :=
  (none :: l.map some).zip l

/-- `kam_month_snaps`: that KAM's project snapshots for month `m`
(join of `project_months` with `projects` on the owning KAM). -/
def kam_month_snaps (store : Store) (kam_id m : Nat) : List ProjectMonth :=
  store.snapshots.filter (fun x =>
    x.month == m &&
      store.projects.any (fun p => p.id == x.project_id && p.kam_id == kam_id))

/-- `month_targets`: zero-or-one target for (KAM, month); first match wins. -/
def month_targets (store : Store) (kam_id m : Nat) : Option MonthlyTarget :=
  store.targets.find? (fun t => t.kam_id == kam_id && t.month == m)

/-- `ym.split("-")` on the character list of the token. -/
def splitDash (l : List Char) : List (List Char) :=
  match l with
  | [] => [[]]
  | c :: rest =>
    match splitDash rest with
    | [] => [[c]]
    | h :: t => if c = '-' then [] :: h :: t else (c :: h) :: t

/-- `int(...)` on one fragment. Well-formed tokens carry plain digit
fragments; a fragment with any non-digit character (or an empty one)
fails here exactly as `int` raises ValueError on it. -/
def digitsVal? (l : List Char) : Option Nat :=
  match l with
  | [] => none
  | _ =>
    l.foldl
      (fun acc c =>
        match acc with
        | none => none
        | some n =>
          if '0' ≤ c ∧ c ≤ '9' then some (n * 10 + (c.toNat - 48)) else none)
      (some 0)

/-- The inline `ym_to_int` parser: `y, mm = ym.split("-")` then
`int(y)*12 + int(mm)`; `none` models the ValueError Python raises on a
token that does not split into exactly two integer fragments. -/
def ym_to_int? (ym : String) : Option Int :=
  match splitDash ym.data with
  | [y, mm] =>
    match digitsVal? y, digitsVal? mm with
    | some yi, some mi => some ((yi : Int) * 12 + (mi : Int))
    | _, _ => none
  | _ => none

/-- Lift a parse result into the exception channel. -/
def toE {α : Type} (o : Option α) : Except String α :=
  match o with
  | some a => Except.ok a
  | none => Except.error "ValueError: malformed sop_ym token"

/-- `prev_proj_map.get(pid)`: the previous-month snapshot of project
`pid`, over ALL projects of ALL KAMs (the query has no KAM filter). -/
def prev_proj_lookup (store : Store) (p pid : Nat) : Option ProjectMonth :=
  lastFind? (fun x => x.project_id == pid)
    (store.snapshots.filter (fun x => x.month == p))

/-- One iteration of the SOP-delay loop body, for current snapshot `x`. -/
def sop_step (store : Store) (p : Nat) (acc : ℚ) (x : ProjectMonth) :
    Except String ℚ :=
  match prev_proj_lookup store p x.project_id with
  | none => Except.ok acc
  | some prev => do
    let ci ← toE (ym_to_int? x.sop_ym)
    let pj ← toE (ym_to_int? prev.sop_ym)
    if ci - pj > 0 ∧ prev.foc2026_sec > 0 then
      Except.ok (acc + 2 * prev.foc2026_sec * ((ci - pj : Int) : ℚ))
    else
      Except.ok acc

/-- The SOP-delay accumulation over every month-`m` snapshot row
(the query `select(...).where(ProjectMonth.month == m)` has no KAM
filter, so this is the same value for every KAM scored in `m`). -/
def sop_delay_lossE (store : Store) (m p : Nat) : Except String ℚ :=
  (store.snapshots.filter (fun x => x.month == m)).foldlM (sop_step store p) 0

/-- SOP-delay loss guarded by the presence of a previous month. -/
def sop_loss_of (store : Store) (pm : Option Nat) (m : Nat) : Except String ℚ :=
  match pm with
  | some p => sop_delay_lossE store m p
  | none => Except.ok 0

/-- One iteration of the promotions loop body. -/
def promo_step (store : Store) (p : Nat) (acc : ℚ) (x : ProjectMonth) : ℚ :=
  match prev_proj_lookup store p x.project_id with
  | none => acc
  | some prev => acc + min (max 0 (x.lvp - prev.lvp)) prev.pp

/-- `promotions`: accumulated over every month-`m` snapshot row of any
KAM (the query again has no KAM filter). -/
def promotions_of (store : Store) (pm : Option Nat) (m : Nat) : ℚ :=
  match pm with
  | some p => (store.snapshots.filter (fun x => x.month == m)).foldl
      (promo_step store p) 0
  | none => 0

/-- Current-month snapshots of the KAM (`snaps`). -/
def snaps_of (store : Store) (kam : KAM) (m : Nat) : List ProjectMonth :=
  kam_month_snaps store kam.id m

/-- Previous-month snapshots of the KAM (`prev_snaps`). -/
def prev_snaps_of (store : Store) (kam : KAM) (pm : Option Nat) :
    List ProjectMonth :=
  match pm with
  | some p => kam_month_snaps store kam.id p
  | none => []

/-- `sum_pp`. -/
def sum_pp_of (store : Store) (kam : KAM) (m : Nat) : ℚ :=
  ((snaps_of store kam m).map (fun x => x.pp)).sum

/-- `sum_lvp`. -/
def sum_lvp_of (store : Store) (kam : KAM) (m : Nat) : ℚ :=
  ((snaps_of store kam m).map (fun x => x.lvp)).sum

/-- `prev_pp`. -/
def prev_pp_of (store : Store) (kam : KAM) (pm : Option Nat) : ℚ :=
  ((prev_snaps_of store kam pm).map (fun x => x.pp)).sum

/-- `prev_lvp`. -/
def prev_lvp_of (store : Store) (kam : KAM) (pm : Option Nat) : ℚ :=
  ((prev_snaps_of store kam pm).map (fun x => x.lvp)).sum

/-- `added_pp = max(0.0, sum_pp - prev_pp)`. -/
def added_pp_of (store : Store) (kam : KAM) (pm : Option Nat) (m : Nat) : ℚ :=
  max 0 (sum_pp_of store kam m - prev_pp_of store kam pm)

/-- `added_lvp = max(0.0, sum_lvp - prev_lvp)`. -/
def added_lvp_of (store : Store) (kam : KAM) (pm : Option Nat) (m : Nat) : ℚ :=
  max 0 (sum_lvp_of store kam m - prev_lvp_of store kam pm)

/-- `gained_pp_points` (the float literal 1.3 is the rational 13/10). -/
def gained_pp_of (store : Store) (kam : KAM) (pm : Option Nat) (m : Nat) : ℚ :=
  match month_targets store kam.id m with
  | none => 0
  | some t =>
    if t.target_pp * (13 / 10) ≤ added_pp_of store kam pm m then 20
    else if t.target_pp ≤ added_pp_of store kam pm m then 10
    else 0

/-- `gained_lvp_points`. -/
def gained_lvp_of (store : Store) (kam : KAM) (pm : Option Nat) (m : Nat) : ℚ :=
  match month_targets store kam.id m with
  | none => 0
  | some t =>
    if t.target_lvp * (13 / 10) ≤ added_lvp_of store kam pm m then 40
    else if t.target_lvp ≤ added_lvp_of store kam pm m then 20
    else 0

/-- `vol_dec_loss`, over the KAM's own snapshots. -/
def vol_loss_of (store : Store) (kam : KAM) (pm : Option Nat) (m : Nat) : ℚ :=
  match pm with
  | none => 0
  | some _ =>
    let prevTot := ((prev_snaps_of store kam pm).map (fun x => x.foc2026_sec)).sum
    let currTot := ((snaps_of store kam m).map (fun x => x.foc2026_sec)).sum
    if currTot < prevTot then 2 * (prevTot - currTot) else 0

/-- `pp_dec_loss`: per-KAM pp totals against the global promotions. -/
def pp_loss_of (store : Store) (kam : KAM) (pm : Option Nat) (m : Nat) : ℚ :=
  match pm with
  | none => 0
  | some _ =>
    let left := prev_pp_of store kam pm + added_pp_of store kam pm m
    let right := sum_pp_of store kam m + promotions_of store pm m
    if right < left then 2 * (left - right) else 0

/-- `inactivity_loss`: 100 when `len(curr_ids - prev_ids) == 0`, that is
when every current project id already appears among the previous ids. -/
def inact_loss_of (store : Store) (kam : KAM) (pm : Option Nat) (m : Nat) : ℚ :=
  match pm with
  | none => 0
  | some _ =>
    if (snaps_of store kam m).all (fun x =>
        (prev_snaps_of store kam pm).any (fun y => y.project_id == x.project_id))
    then 100 else 0

/-- Assemble the emitted `ScoreItem`, given the SOP-delay value `s`. -/
def mk_item (store : Store) (kam : KAM) (pm : Option Nat) (m : Nat) (s : ℚ) :
    ScoreItem :=
  { kam := kam.name
    month := m
    points_gained_pp := gained_pp_of store kam pm m
    points_gained_lvp := gained_lvp_of store kam pm m
    points_lost_sop_delay := s
    points_lost_volume_dec := vol_loss_of store kam pm m
    points_lost_pp_dec := pp_loss_of store kam pm m
    total := gained_pp_of store kam pm m + gained_lvp_of store kam pm m -
      (s + vol_loss_of store kam pm m + pp_loss_of store kam pm m +
        inact_loss_of store kam pm m) }

/-- The per-(KAM, month) body of the double loop in `calc_scores`. -/
def score_kam_month (store : Store) (kam : KAM) (pm : Option Nat) (m : Nat) :
    Except String ScoreItem :=
  match sop_loss_of store pm m with
  | Except.error e => Except.error e
  | Except.ok s => Except.ok (mk_item store kam pm m s)

/-- `cumul[kam.name] += total` on the association list. -/
def updateAssoc (l : Cumul) (k : String) (v : ℚ) : Cumul :=
  l.map (fun p => if p.1 == k then (p.1, p.2 + v) else p)

/-- Dict lookup on the association list (first match). -/
def lookupA (l : Cumul) (k : String) : Option ℚ :=
  (l.find? (fun p => p.1 == k)).map (fun p => p.2)

/-- The inner `for kam in kams` loop for one month. -/
def calc_kams (store : Store) (pm : Option Nat) (m : Nat) :
    List KAM → List ScoreItem × Cumul → Except String (List ScoreItem × Cumul)
  | [], acc => Except.ok acc
  | kam :: ks, acc =>
    if (kam_month_snaps store kam.id m).isEmpty then
      calc_kams store pm m ks acc
    else
      match score_kam_month store kam pm m with
      | Except.error e => Except.error e
      | Except.ok item =>
        calc_kams store pm m ks
          (acc.1 ++ [item], updateAssoc acc.2 kam.name item.total)

/-- The outer `for mi, m in enumerate(months)` loop. -/
def calc_months (store : Store) :
    List (Option Nat × Nat) → List ScoreItem × Cumul →
    Except String (List ScoreItem × Cumul)
  | [], acc => Except.ok acc
  | pmm :: rest, acc =>
    match calc_kams store pmm.1 pmm.2 store.kams acc with
    | Except.error e => Except.error e
    | Except.ok acc2 => calc_months store rest acc2

/-- `calc_scores`: the whole engine run over the store. -/
def calc_scores (store : Store) : Except String (List ScoreItem × Cumul) :=
  calc_months store (withPrev (sortMonths (store.snapshots.map (fun x => x.month))))
    ([], store.kams.map (fun k => (k.name, (0 : ℚ))))

/-- The per-snapshot SOP-delay contribution, written as a plain term so
the monadic accumulation can be restated as a list sum. -/
def sop_term (store : Store) (p : Nat) (x : ProjectMonth) : ℚ :=
  match prev_proj_lookup store p x.project_id with
  | none => 0
  | some prev =>
    match ym_to_int? x.sop_ym, ym_to_int? prev.sop_ym with
    | some ci, some pj =>
      if ci - pj > 0 ∧ prev.foc2026_sec > 0 then
        2 * prev.foc2026_sec * ((ci - pj : Int) : ℚ)
      else 0
    | _, _ => 0

/-- The per-snapshot promotions contribution as a plain term. -/
def promo_term (store : Store) (p : Nat) (x : ProjectMonth) : ℚ :=
  match prev_proj_lookup store p x.project_id with
  | none => 0
  | some prev => min (max 0 (x.lvp - prev.lvp)) prev.pp

/-- Sum of the totals of the records carrying KAM name `n`. -/
def totals_for (n : String) (l : List ScoreItem) : ℚ :=
  ((l.filter (fun r => r.kam == n)).map (fun r => r.total)).sum

/-- Bind on the exception channel, successful case. -/
theorem except_bind_ok {ε α β : Type} (a : α) (f : α → Except ε β) :
    (Except.ok a >>= f : Except ε β) = f a := rfl

/-- Bind on the exception channel, failing case. -/
theorem except_bind_error {ε α β : Type} (e : ε) (f : α → Except ε β) :
    (Except.error e >>= f : Except ε β) = Except.error e := rfl

/-- A successful `lastFind?` returns a member satisfying the predicate. -/
theorem lastFind?_mem {α : Type} {p : α → Bool} {l : List α} {a : α}
    (h : lastFind? p l = some a) : a ∈ l ∧ p a = true := by
  suffices H : ∀ (l : List α) (init : Option α),
      l.foldl (fun acc x => if p x then some x else acc) init = some a →
      init = some a ∨ (a ∈ l ∧ p a = true) by
    rcases H l none h with h' | h'
    · exact absurd h' (by simp)
    · exact h'
  intro l
  induction l with
  | nil => intro init h; exact Or.inl h
  | cons x xs ih =>
    intro init h
    rcases ih _ h with h' | h'
    · by_cases hp : p x = true
      · simp [hp] at h'
        exact Or.inr ⟨by simp [h'.symm], h' ▸ hp⟩
      · simp [hp] at h'
        exact Or.inl h'
    · exact Or.inr ⟨List.mem_cons_of_mem _ h'.1, h'.2⟩

/-- SOP-delay term of a project with no previous-month snapshot. -/
theorem sop_term_of_none {store : Store} {p : Nat} {x : ProjectMonth}
    (hl : prev_proj_lookup store p x.project_id = none) :
    sop_term store p x = 0 := by
  simp [sop_term, hl]

/-- SOP-delay term when both tokens parse. -/
theorem sop_term_of_some {store : Store} {p : Nat} {x prev : ProjectMonth}
    {ci pj : Int} (hl : prev_proj_lookup store p x.project_id = some prev)
    (hc : ym_to_int? x.sop_ym = some ci) (hp : ym_to_int? prev.sop_ym = some pj) :
    sop_term store p x =
      if ci - pj > 0 ∧ prev.foc2026_sec > 0 then
        2 * prev.foc2026_sec * ((ci - pj : Int) : ℚ)
      else 0 := by
  simp [sop_term, hl, hc, hp]

/-- SOP-delay step of a project with no previous-month snapshot. -/
theorem sop_step_of_none {store : Store} {p : Nat} {x : ProjectMonth}
    (acc : ℚ) (hl : prev_proj_lookup store p x.project_id = none) :
    sop_step store p acc x = Except.ok acc := by
  simp [sop_step, hl]

/-- SOP-delay step when both tokens parse. -/
theorem sop_step_of_some {store : Store} {p : Nat} {x prev : ProjectMonth}
    {ci pj : Int} (acc : ℚ)
    (hl : prev_proj_lookup store p x.project_id = some prev)
    (hc : ym_to_int? x.sop_ym = some ci) (hp : ym_to_int? prev.sop_ym = some pj) :
    sop_step store p acc x =
      if ci - pj > 0 ∧ prev.foc2026_sec > 0 then
        Except.ok (acc + 2 * prev.foc2026_sec * ((ci - pj : Int) : ℚ))
      else Except.ok acc := by
  simp [sop_step, hl, hc, hp, toE, except_bind_ok]

/-- SOP-delay step when the current token fails to parse. -/
theorem sop_step_err_curr {store : Store} {p : Nat} {x prev : ProjectMonth}
    (acc : ℚ) (hl : prev_proj_lookup store p x.project_id = some prev)
    (hc : ym_to_int? x.sop_ym = none) :
    sop_step store p acc x =
      Except.error "ValueError: malformed sop_ym token" := by
  simp [sop_step, hl, hc, toE, except_bind_error]

/-- SOP-delay step when the previous token fails to parse. -/
theorem sop_step_err_prev {store : Store} {p : Nat} {x prev : ProjectMonth}
    {ci : Int} (acc : ℚ)
    (hl : prev_proj_lookup store p x.project_id = some prev)
    (hc : ym_to_int? x.sop_ym = some ci) (hp : ym_to_int? prev.sop_ym = none) :
    sop_step store p acc x =
      Except.error "ValueError: malformed sop_ym token" := by
  simp [sop_step, hl, hc, hp, toE, except_bind_ok, except_bind_error]

/-- A successful SOP-delay step adds exactly the per-snapshot term. -/
theorem sop_step_ok {store : Store} {p : Nat} {acc v : ℚ} {x : ProjectMonth}
    (h : sop_step store p acc x = Except.ok v) :
    v = acc + sop_term store p x := by
  cases hl : prev_proj_lookup store p x.project_id with
  | none =>
    rw [sop_step_of_none acc hl] at h
    simp only [Except.ok.injEq] at h
    rw [sop_term_of_none hl, h, add_zero]
  | some prev =>
    cases hc : ym_to_int? x.sop_ym with
    | none => rw [sop_step_err_curr acc hl hc] at h; exact absurd h (by simp)
    | some ci =>
      cases hp : ym_to_int? prev.sop_ym with
      | none => rw [sop_step_err_prev acc hl hc hp] at h; exact absurd h (by simp)
      | some pj =>
        rw [sop_step_of_some acc hl hc hp] at h
        rw [sop_term_of_some hl hc hp]
        by_cases hcond : ci - pj > 0 ∧ prev.foc2026_sec > 0
        · rw [if_pos hcond] at h
          rw [if_pos hcond]
          simp only [Except.ok.injEq] at h
          exact h.symm
        · rw [if_neg hcond] at h
          rw [if_neg hcond]
          simp only [Except.ok.injEq] at h
          rw [h, add_zero]

/-- A successful SOP-delay accumulation is the sum of the per-snapshot
terms on top of the starting accumulator. -/
theorem sop_foldlM_ok {store : Store} {p : Nat} :
    ∀ {l : List ProjectMonth} {acc s : ℚ},
      l.foldlM (sop_step store p) acc = Except.ok s →
      s = acc + (l.map (sop_term store p)).sum := by
  intro l
  induction l with
  | nil =>
    intro acc s h
    simp only [List.foldlM_nil] at h
    have h' : Except.ok (ε := String) acc = Except.ok s := h
    simp only [Except.ok.injEq] at h'
    simp [h']
  | cons x xs ih =>
    intro acc s h
    rw [List.foldlM_cons] at h
    cases hx : sop_step store p acc x with
    | error e => rw [hx, except_bind_error] at h; exact absurd h (by simp)
    | ok acc2 =>
      rw [hx, except_bind_ok] at h
      rw [ih h, sop_step_ok hx]
      simp [add_assoc]

/-- Each SOP-delay term is non-negative: it is either zero or a product
of positives (the guard demands a positive slip and a positive weight). -/
theorem sop_term_nonneg (store : Store) (p : Nat) (x : ProjectMonth) :
    0 ≤ sop_term store p x := by
  cases hl : prev_proj_lookup store p x.project_id with
  | none => rw [sop_term_of_none hl]
  | some prev =>
    cases hc : ym_to_int? x.sop_ym with
    | none => simp [sop_term, hl, hc]
    | some ci =>
      cases hp : ym_to_int? prev.sop_ym with
      | none => simp [sop_term, hl, hc, hp]
      | some pj =>
        rw [sop_term_of_some hl hc hp]
        by_cases hcond : ci - pj > 0 ∧ prev.foc2026_sec > 0
        · rw [if_pos hcond]
          have h1 : (0 : ℚ) < ((ci - pj : Int) : ℚ) := by exact_mod_cast hcond.1
          have h2 := hcond.2
          positivity
        · rw [if_neg hcond]

/-- A promotions step adds exactly the per-snapshot term. -/
theorem promo_step_eq (store : Store) (p : Nat) (acc : ℚ) (x : ProjectMonth) :
    promo_step store p acc x = acc + promo_term store p x := by
  unfold promo_step promo_term
  cases prev_proj_lookup store p x.project_id with
  | none => simp
  | some prev => simp

/-- The promotions fold is the sum of the per-snapshot terms. -/
theorem promo_foldl_eq (store : Store) (p : Nat) :
    ∀ (l : List ProjectMonth) (acc : ℚ),
      l.foldl (promo_step store p) acc = acc + (l.map (promo_term store p)).sum := by
  intro l
  induction l with
  | nil => intro acc; simp
  | cons x xs ih =>
    intro acc
    rw [List.foldl_cons, promo_step_eq, ih]
    simp [add_assoc]

/-- `promotions` as a sum over every month-`m` snapshot of any KAM. -/
theorem promotions_of_eq_sum (store : Store) (p m : Nat) :
    promotions_of store (some p) m =
      ((store.snapshots.filter (fun x => x.month == m)).map
        (promo_term store p)).sum := by
  show (store.snapshots.filter (fun x => x.month == m)).foldl
      (promo_step store p) 0 = _
  rw [promo_foldl_eq]
  simp

/-- A promotions term never exceeds the previous `pp` of the project. -/
theorem promo_term_le_prev_pp {store : Store} {p : Nat} {x prev : ProjectMonth}
    (h : prev_proj_lookup store p x.project_id = some prev) :
    promo_term store p x ≤ prev.pp := by
  unfold promo_term
  rw [h]
  exact min_le_right _ _

/-- A promotions term is non-negative when the stored `pp` figures are. -/
theorem promo_term_nonneg {store : Store} {p : Nat} (x : ProjectMonth)
    (hpp : ∀ y ∈ store.snapshots, 0 ≤ y.pp) :
    0 ≤ promo_term store p x := by
  unfold promo_term
  cases hl : prev_proj_lookup store p x.project_id with
  | none => simp
  | some prev =>
    have hmem := (lastFind?_mem hl).1
    have : prev ∈ store.snapshots := (List.mem_filter.mp hmem).1
    exact le_min (le_max_left _ _) (hpp prev this)

/-- Eliminate a successful per-(KAM, month) score into its components. -/
theorem score_ok_elim {store : Store} {kam : KAM} {pm : Option Nat} {m : Nat}
    {r : ScoreItem} (h : score_kam_month store kam pm m = Except.ok r) :
    ∃ s, sop_loss_of store pm m = Except.ok s ∧
      r = mk_item store kam pm m s := by
  unfold score_kam_month at h
  cases hs : sop_loss_of store pm m with
  | error e => rw [hs] at h; exact absurd h (by simp)
  | ok s =>
    rw [hs] at h
    have hr : r = mk_item store kam pm m s := by
      cases h; rfl
    exact ⟨s, rfl, hr⟩

/-- Updating a key bumps what a lookup of that key sees. -/
theorem lookupA_updateAssoc_same (l : Cumul) (k : String) (v : ℚ) :
    lookupA (updateAssoc l k v) k = (lookupA l k).map (fun w => w + v) := by
  induction l with
  | nil => rfl
  | cons p t ih =>
    by_cases hp : p.1 == k
    · simp [updateAssoc, lookupA, List.find?, hp]
    · simp only [updateAssoc, List.map_cons, if_neg hp] at *
      simp [lookupA, List.find?, hp] at *
      exact ih

/-- Updating one key leaves lookups of other keys unchanged. -/
theorem lookupA_updateAssoc_other {k n : String} (l : Cumul) (v : ℚ)
    (hne : n ≠ k) :
    lookupA (updateAssoc l k v) n = lookupA l n := by
  induction l with
  | nil => rfl
  | cons p t ih =>
    by_cases hp : p.1 == k
    · have hp' : p.1 = k := eq_of_beq hp
      have hn : (p.1 == n) = false := by
        rw [hp']; exact beq_false_of_ne (fun h => hne h.symm)
      simp [updateAssoc, lookupA, List.find?, hp, hn] at *
      exact ih
    · by_cases hn : p.1 == n
      · simp [updateAssoc, lookupA, List.find?, hp, hn]
      · simp [updateAssoc, lookupA, List.find?, hp, hn] at *
        exact ih

/-- Per-KAM totals of a record list, head case. -/
theorem totals_for_cons (n : String) (r : ScoreItem) (l : List ScoreItem) :
    totals_for n (r :: l) =
      (if r.kam == n then r.total else 0) + totals_for n l := by
  by_cases h : r.kam == n <;> simp [totals_for, List.filter_cons, h]

/-- Per-KAM totals of a record list, append case. -/
theorem totals_for_append (n : String) (l₁ l₂ : List ScoreItem) :
    totals_for n (l₁ ++ l₂) = totals_for n l₁ + totals_for n l₂ := by
  simp [totals_for, List.filter_append]

/-- The emitted record names the scored KAM. -/
theorem score_kam_name {store : Store} {kam : KAM} {pm : Option Nat} {m : Nat}
    {r : ScoreItem} (h : score_kam_month store kam pm m = Except.ok r) :
    r.kam = kam.name := by
  obtain ⟨s, _, hr⟩ := score_ok_elim h
  rw [hr]
  rfl

/-- The emitted record names the scored month. -/
theorem score_month_name {store : Store} {kam : KAM} {pm : Option Nat} {m : Nat}
    {r : ScoreItem} (h : score_kam_month store kam pm m = Except.ok r) :
    r.month = m := by
  obtain ⟨s, _, hr⟩ := score_ok_elim h
  rw [hr]
  rfl

/-- Unfolding equation of the inner KAM loop, empty case. -/
theorem calc_kams_nil (store : Store) (pm : Option Nat) (m : Nat)
    (acc : List ScoreItem × Cumul) :
    calc_kams store pm m [] acc = Except.ok acc := rfl

/-- Unfolding equation of the inner KAM loop, cons case. -/
theorem calc_kams_cons (store : Store) (pm : Option Nat) (m : Nat) (kam : KAM)
    (ks : List KAM) (acc : List ScoreItem × Cumul) :
    calc_kams store pm m (kam :: ks) acc =
      if (kam_month_snaps store kam.id m).isEmpty then
        calc_kams store pm m ks acc
      else
        match score_kam_month store kam pm m with
        | Except.error e => Except.error e
        | Except.ok item =>
          calc_kams store pm m ks
            (acc.1 ++ [item], updateAssoc acc.2 kam.name item.total) := rfl

/-- What a successful inner KAM loop appends and accumulates. -/
theorem calc_kams_spec (store : Store) (pm : Option Nat) (m : Nat) :
    ∀ (ks : List KAM) (acc out : List ScoreItem × Cumul),
      calc_kams store pm m ks acc = Except.ok out →
      ∃ new : List ScoreItem,
        out.1 = acc.1 ++ new ∧
        (∀ n : String, lookupA out.2 n =
          (lookupA acc.2 n).map (fun w => w + totals_for n new)) ∧
        (∀ r ∈ new, ∃ k, k ∈ ks ∧ r.kam = k.name ∧ r.month = m ∧
          kam_month_snaps store k.id m ≠ [] ∧
          score_kam_month store k pm m = Except.ok r) ∧
        (∀ k ∈ ks, kam_month_snaps store k.id m ≠ [] →
          ∃ r ∈ new, r.kam = k.name ∧ r.month = m) := by
  intro ks
  induction ks with
  | nil =>
    intro acc out h
    rw [calc_kams_nil] at h
    simp only [Except.ok.injEq] at h
    subst h
    refine ⟨[], by simp, ?_, by simp, by simp⟩
    intro n
    cases lookupA acc.2 n <;> simp [totals_for]
  | cons kam ks ih =>
    intro acc out h
    rw [calc_kams_cons] at h
    by_cases hemp : (kam_month_snaps store kam.id m).isEmpty
    · rw [if_pos hemp] at h
      obtain ⟨new, h1, h2, h3, h4⟩ := ih acc out h
      refine ⟨new, h1, h2, ?_, ?_⟩
      · intro r hr
        obtain ⟨k, hk, rest⟩ := h3 r hr
        exact ⟨k, List.mem_cons_of_mem _ hk, rest⟩
      · intro k hk hsn
        rcases List.mem_cons.mp hk with hk | hk
        · subst hk
          exact absurd (List.isEmpty_iff.mp hemp) hsn
        · exact h4 k hk hsn
    · rw [if_neg hemp] at h
      cases hitem : score_kam_month store kam pm m with
      | error e => rw [hitem] at h; simp at h
      | ok item =>
        rw [hitem] at h
        obtain ⟨new, h1, h2, h3, h4⟩ :=
          ih (acc.1 ++ [item], updateAssoc acc.2 kam.name item.total) out h
        have hname : item.kam = kam.name := score_kam_name hitem
        refine ⟨item :: new, ?_, ?_, ?_, ?_⟩
        · rw [h1]; simp
        · intro n
          rw [h2 n, totals_for_cons]
          by_cases hn : n = kam.name
          · have hhit : (item.kam == n) = true := by
              simp [hname, hn]
            rw [hn, lookupA_updateAssoc_same]
            cases lookupA acc.2 kam.name with
            | none => simp
            | some w => simp [hn ▸ hhit, add_assoc]
          · have hmiss : (item.kam == n) = false := by
              rw [hname]; exact beq_false_of_ne (fun h => hn h.symm)
            rw [lookupA_updateAssoc_other _ _ hn]
            cases lookupA acc.2 n with
            | none => simp
            | some w => simp [hmiss]
        · intro r hr
          rcases List.mem_cons.mp hr with hr | hr
          · subst hr
            exact ⟨kam, List.mem_cons_self _ _, hname, score_month_name hitem,
              fun hc => hemp (by simp [hc, List.isEmpty_iff]) |>.elim, hitem⟩
          · obtain ⟨k, hk, rest⟩ := h3 r hr
            exact ⟨k, List.mem_cons_of_mem _ hk, rest⟩
        · intro k hk hsn
          rcases List.mem_cons.mp hk with hk | hk
          · subst hk
            exact ⟨item, List.mem_cons_self _ _, hname, score_month_name hitem⟩
          · obtain ⟨r, hrmem, hrk⟩ := h4 k hk hsn
            exact ⟨r, List.mem_cons_of_mem _ hrmem, hrk⟩

/-- Unfolding equation of the outer month loop, empty case. -/
theorem calc_months_nil (store : Store) (acc : List ScoreItem × Cumul) :
    calc_months store [] acc = Except.ok acc := rfl

/-- Unfolding equation of the outer month loop, cons case. -/
theorem calc_months_cons (store : Store) (pmm : Option Nat × Nat)
    (rest : List (Option Nat × Nat)) (acc : List ScoreItem × Cumul) :
    calc_months store (pmm :: rest) acc =
      match calc_kams store pmm.1 pmm.2 store.kams acc with
      | Except.error e => Except.error e
      | Except.ok acc2 => calc_months store rest acc2 := rfl

/-- What a successful month loop appends and accumulates. -/
theorem calc_months_spec (store : Store) :
    ∀ (pairs : List (Option Nat × Nat)) (acc out : List ScoreItem × Cumul),
      calc_months store pairs acc = Except.ok out →
      ∃ new : List ScoreItem,
        out.1 = acc.1 ++ new ∧
        (∀ n : String, lookupA out.2 n =
          (lookupA acc.2 n).map (fun w => w + totals_for n new)) ∧
        (∀ r ∈ new, ∃ pmm, pmm ∈ pairs ∧ ∃ k, k ∈ store.kams ∧
          r.kam = k.name ∧ r.month = pmm.2 ∧
          kam_month_snaps store k.id pmm.2 ≠ [] ∧
          score_kam_month store k pmm.1 pmm.2 = Except.ok r) ∧
        (∀ pmm ∈ pairs, ∀ k ∈ store.kams,
          kam_month_snaps store k.id pmm.2 ≠ [] →
          ∃ r ∈ new, r.kam = k.name ∧ r.month = pmm.2) := by
  intro pairs
  induction pairs with
  | nil =>
    intro acc out h
    rw [calc_months_nil] at h
    simp only [Except.ok.injEq] at h
    subst h
    refine ⟨[], by simp, ?_, by simp, by simp⟩
    intro n
    cases lookupA acc.2 n <;> simp [totals_for]
  | cons pmm rest ih =>
    intro acc out h
    rw [calc_months_cons] at h
    cases hk : calc_kams store pmm.1 pmm.2 store.kams acc with
    | error e => rw [hk] at h; simp at h
    | ok acc2 =>
      rw [hk] at h
      obtain ⟨new1, g1, g2, g3, g4⟩ := calc_kams_spec store pmm.1 pmm.2 _ _ _ hk
      obtain ⟨new2, j1, j2, j3, j4⟩ := ih acc2 out h
      refine ⟨new1 ++ new2, ?_, ?_, ?_, ?_⟩
      · rw [j1, g1, List.append_assoc]
      · intro n
        rw [j2 n, g2 n, totals_for_append]
        cases lookupA acc.2 n with
        | none => simp
        | some w => simp [add_assoc]
      · intro r hr
        rcases List.mem_append.mp hr with hr | hr
        · obtain ⟨k, hk1, hk2, hk3, hk4, hk5⟩ := g3 r hr
          exact ⟨pmm, List.mem_cons_self _ _, k, hk1, hk2, hk3, hk4, hk5⟩
        · obtain ⟨q, hq, k, hrest⟩ := j3 r hr
          exact ⟨q, List.mem_cons_of_mem _ hq, k, hrest⟩
      · intro q hq k hkk hsn
        rcases List.mem_cons.mp hq with hq | hq
        · subst hq
          obtain ⟨r, hrmem, hrk⟩ := g4 k hkk hsn
          exact ⟨r, List.mem_append.mpr (Or.inl hrmem), hrk⟩
        · obtain ⟨r, hrmem, hrk⟩ := j4 q hq k hkk hsn
          exact ⟨r, List.mem_append.mpr (Or.inr hrmem), hrk⟩

/-- Initial cumulative entry of a stored KAM is zero. -/
theorem lookupA_init (kams : List KAM) (k : KAM) (hk : k ∈ kams) :
    lookupA (kams.map (fun j => (j.name, (0 : ℚ)))) k.name = some 0 := by
  induction kams with
  | nil => cases hk
  | cons a t ih =>
    by_cases ha : (a.name == k.name)
    · simp [lookupA, List.find?, ha]
    · rcases List.mem_cons.mp hk with hk' | hk'
      · rw [hk'] at ha; simp at ha
      · simp only [List.map_cons]
        simp [lookupA, List.find?, ha] at *
        exact ih hk'

/-- The second components of the month-predecessor pairs are the months. -/
theorem withPrev_map_snd (l : List Nat) : (withPrev l).map Prod.snd = l := by
  unfold withPrev
  rw [List.map_snd_zip]
  simp

/-- Every month appears as the second component of some pair. -/
theorem mem_withPrev {l : List Nat} {m : Nat} (hm : m ∈ l) :
    ∃ pmm, pmm ∈ withPrev l ∧ pmm.2 = m := by
  rw [← withPrev_map_snd l] at hm
  rcases List.mem_map.mp hm with ⟨pmm, hmem, heq⟩
  exact ⟨pmm, hmem, heq⟩

/-- Every pair's second component is one of the months. -/
theorem withPrev_snd_mem {l : List Nat} {pmm : Option Nat × Nat}
    (h : pmm ∈ withPrev l) : pmm.2 ∈ l := by
  rw [← withPrev_map_snd l]
  exact List.mem_map_of_mem _ h

/-- Gain points for `pp` are 0, 10 or 20, hence non-negative. -/
theorem gained_pp_of_nonneg (store : Store) (kam : KAM) (pm : Option Nat)
    (m : Nat) : 0 ≤ gained_pp_of store kam pm m := by
  cases ht : month_targets store kam.id m with
  | none => simp [gained_pp_of, ht]
  | some t =>
    simp only [gained_pp_of, ht]
    split_ifs <;> norm_num

/-- Gain points for `lvp` are 0, 20 or 40, hence non-negative. -/
theorem gained_lvp_of_nonneg (store : Store) (kam : KAM) (pm : Option Nat)
    (m : Nat) : 0 ≤ gained_lvp_of store kam pm m := by
  cases ht : month_targets store kam.id m with
  | none => simp [gained_lvp_of, ht]
  | some t =>
    simp only [gained_lvp_of, ht]
    split_ifs <;> norm_num

/-- The volume-decrease loss is gated to fire only on a strict decrease. -/
theorem vol_loss_of_nonneg (store : Store) (kam : KAM) (pm : Option Nat)
    (m : Nat) : 0 ≤ vol_loss_of store kam pm m := by
  cases pm with
  | none => simp [vol_loss_of]
  | some p =>
    simp only [vol_loss_of]
    split_ifs with hlt
    · linarith
    · exact le_refl 0

/-- The pp-decrease loss is gated to fire only on a strict shortfall. -/
theorem pp_loss_of_nonneg (store : Store) (kam : KAM) (pm : Option Nat)
    (m : Nat) : 0 ≤ pp_loss_of store kam pm m := by
  cases pm with
  | none => simp [pp_loss_of]
  | some p =>
    simp only [pp_loss_of]
    split_ifs with hlt
    · linarith
    · exact le_refl 0

/-- The inactivity loss is 0 or 100. -/
theorem inact_loss_of_nonneg (store : Store) (kam : KAM) (pm : Option Nat)
    (m : Nat) : 0 ≤ inact_loss_of store kam pm m := by
  cases pm with
  | none => simp [inact_loss_of]
  | some p =>
    simp only [inact_loss_of]
    split_ifs <;> norm_num

/-- A successful SOP-delay figure is non-negative. -/
theorem sop_loss_nonneg {store : Store} {pm : Option Nat} {m : Nat} {s : ℚ}
    (h : sop_loss_of store pm m = Except.ok s) : 0 ≤ s := by
  cases pm with
  | none =>
    have h' : Except.ok (ε := String) (0 : ℚ) = Except.ok s := h
    simp only [Except.ok.injEq] at h'
    rw [← h']
  | some p =>
    have h' : (store.snapshots.filter (fun x => x.month == m)).foldlM
        (sop_step store p) 0 = Except.ok s := h
    rw [sop_foldlM_ok h', zero_add]
    refine List.sum_nonneg ?_
    intro q hq
    rcases List.mem_map.mp hq with ⟨x, _, hx⟩
    rw [← hx]
    exact sop_term_nonneg store p x

/-- Two KAMs; only KAM B's project slips its SOP date between months. -/
def c1_store : Store :=
  { kams := [⟨1, "A", "EU"⟩, ⟨2, "B", "EU"⟩]
    projects := [⟨1, 1, "A-P1", "Proj A-P1"⟩, ⟨2, 2, "B-P1", "Proj B-P1"⟩]
    targets := []
    snapshots :=
      [⟨1, 0, 10, 10, "2026-01", 1, 5⟩, ⟨1, 1, 10, 10, "2026-01", 1, 5⟩,
       ⟨2, 0, 10, 10, "2026-01", 1, 5⟩, ⟨2, 1, 10, 10, "2026-02", 1, 5⟩] }

/-- Two KAMs; only KAM B's project increases its `lvp` between months. -/
def c2_store : Store :=
  { kams := [⟨1, "A", "EU"⟩, ⟨2, "B", "EU"⟩]
    projects := [⟨1, 1, "A-P1", "Proj A-P1"⟩, ⟨2, 2, "B-P1", "Proj B-P1"⟩]
    targets := []
    snapshots :=
      [⟨1, 0, 50, 10, "2026-01", 0, 5⟩, ⟨1, 1, 40, 10, "2026-01", 0, 5⟩,
       ⟨2, 0, 100, 0, "2026-01", 0, 0⟩, ⟨2, 1, 100, 8, "2026-01", 0, 0⟩] }

/-- The spec's first-month example: Alice, pp 50 / lvp 30, target 40 / 20. -/
def c3_store : Store :=
  { kams := [⟨1, "Alice", "EU"⟩]
    projects := [⟨1, 1, "AL-P1", "Proj AL-P1"⟩]
    targets := [⟨1, 0, 40, 20⟩]
    snapshots := [⟨1, 0, 50, 30, "2026-06", 0, 0⟩] }

/-- One KAM whose project set both gains and loses a member. -/
def c4_store : Store :=
  { kams := [⟨1, "A", "EU"⟩]
    projects := [⟨1, 1, "A-P1", "Proj A-P1"⟩, ⟨2, 1, "A-P2", "Proj A-P2"⟩,
                 ⟨3, 1, "A-P3", "Proj A-P3"⟩]
    targets := []
    snapshots :=
      [⟨1, 0, 10, 10, "2026-01", 0, 5⟩, ⟨3, 0, 0, 0, "2026-01", 0, 0⟩,
       ⟨1, 1, 10, 10, "2026-01", 0, 5⟩, ⟨2, 1, 0, 0, "2026-01", 0, 0⟩] }

/-- One KAM with identical snapshots in two months: only the (unemitted)
inactivity figure is non-zero. -/
def c5_store : Store :=
  { kams := [⟨1, "A", "EU"⟩]
    projects := [⟨1, 1, "A-P1", "Proj A-P1"⟩]
    targets := []
    snapshots := [⟨1, 0, 10, 10, "2026-01", 0, 5⟩, ⟨1, 1, 10, 10, "2026-01", 0, 5⟩] }

/-- Minimal single-snapshot store. -/
def c6_store : Store :=
  { kams := [⟨1, "A", "EU"⟩]
    projects := [⟨1, 1, "A-P1", "Proj A-P1"⟩]
    targets := []
    snapshots := [⟨1, 0, 1, 1, "2026-01", 0, 0⟩] }

/-- Minimal single-snapshot store. -/
def c7_store : Store :=
  { kams := [⟨1, "A", "EU"⟩]
    projects := [⟨1, 1, "A-P1", "Proj A-P1"⟩]
    targets := []
    snapshots := [⟨1, 0, 1, 2, "2026-01", 0, 0⟩] }

/-- A second-month snapshot whose `sop_ym` is not of the form YYYY-MM. -/
def c8_store : Store :=
  { kams := [⟨1, "A", "EU"⟩]
    projects := [⟨1, 1, "A-P1", "Proj A-P1"⟩]
    targets := []
    snapshots := [⟨1, 0, 10, 10, "2026-01", 0, 5⟩, ⟨1, 1, 10, 10, "2026/01", 0, 5⟩] }

/-- KAM B exists in the store but owns no snapshot in any month. -/
def c9_store : Store :=
  { kams := [⟨1, "A", "EU"⟩, ⟨2, "B", "EU"⟩]
    projects := [⟨1, 1, "A-P1", "Proj A-P1"⟩]
    targets := []
    snapshots := [⟨1, 0, 1, 1, "2026-01", 0, 0⟩] }

/-- KAM A first appears in month 1; month 0 exists only through KAM B. -/
def c10_store : Store :=
  { kams := [⟨1, "A", "EU"⟩, ⟨2, "B", "EU"⟩]
    projects := [⟨1, 1, "A-P1", "Proj A-P1"⟩, ⟨2, 2, "B-P1", "Proj B-P1"⟩]
    targets := []
    snapshots := [⟨2, 0, 1, 1, "2026-01", 0, 1⟩, ⟨1, 1, 10, 10, "2026-01", 0, 1⟩] }

/-- KAM A of the two-KAM delay store. -/
def c1_kamA : KAM := ⟨1, "A", "EU"⟩

/-- The record the engine emits for KAM A in month 1 of `c1_store`. -/
def c1_rec : ScoreItem :=
  { kam := "A", month := 1, points_gained_pp := 0, points_gained_lvp := 0,
    points_lost_sop_delay := 10, points_lost_volume_dec := 0,
    points_lost_pp_dec := 0, total := -110 }

/-- Claim C1 (amended): the delivery-date slippage loss of a KAM scored in
month `m` with previous month `p` is the sum of the slippage terms over ALL
projects with snapshots in both months — including projects of other KAMs —
and is therefore the same figure for every KAM scored in `m`. -/
theorem c1_sop_delay_is_global (store : Store) (kam : KAM) (p m : Nat)
    (r : ScoreItem) (h : score_kam_month store kam (some p) m = Except.ok r) :
    r.points_lost_sop_delay =
      ((store.snapshots.filter (fun x => x.month == m)).map
        (sop_term store p)).sum ∧
    (∀ (kam2 : KAM) (r2 : ScoreItem),
      score_kam_month store kam2 (some p) m = Except.ok r2 →
      r2.points_lost_sop_delay = r.points_lost_sop_delay) := by
  have key : ∀ (kk : KAM) (rr : ScoreItem),
      score_kam_month store kk (some p) m = Except.ok rr →
      rr.points_lost_sop_delay =
        ((store.snapshots.filter (fun x => x.month == m)).map
          (sop_term store p)).sum := by
    intro kk rr hh
    obtain ⟨s, hs, hr⟩ := score_ok_elim hh
    subst hr
    show s = _
    have hs' : (store.snapshots.filter (fun x => x.month == m)).foldlM
        (sop_step store p) 0 = Except.ok s := hs
    rw [sop_foldlM_ok hs', zero_add]
  exact ⟨key kam r h, fun kam2 r2 h2 => (key kam2 r2 h2).trans (key kam r h).symm⟩

/-- Claim C1 counterexample: in `c1_store` only KAM B's project slips, yet
KAM A's emitted slippage loss is 10, while the claim's per-KAM sum over
KAM A's own projects is 0. -/
theorem c1_counterexample :
    score_kam_month c1_store c1_kamA (some 0) 1 = Except.ok c1_rec ∧
    c1_rec.points_lost_sop_delay = 10 ∧
    ((kam_month_snaps c1_store c1_kamA.id 1).map (sop_term c1_store 0)).sum = 0 ∧
    (10 : ℚ) ≠ 0 := by
  have h1 : ym_to_int? "2026-01" = some 24313 := by decide
  have h2 : ym_to_int? "2026-02" = some 24314 := by decide
  norm_num [score_kam_month, sop_loss_of, sop_delay_lossE, sop_step, promo_step,
    prev_proj_lookup, lastFind?, h1, h2, toE, mk_item, except_bind_ok,
    except_bind_error, gained_pp_of, gained_lvp_of, month_targets, vol_loss_of,
    pp_loss_of, inact_loss_of, promotions_of, added_pp_of, added_lvp_of,
    sum_pp_of, sum_lvp_of, prev_pp_of, prev_lvp_of, snaps_of, prev_snaps_of,
    kam_month_snaps, sop_term, c1_store, c1_kamA, c1_rec, List.foldlM]

/-- Witness for the amended claim C1 at the two-KAM store. -/
theorem c1_witness :
    score_kam_month c1_store c1_kamA (some 0) 1 = Except.ok c1_rec ∧
    (c1_rec.points_lost_sop_delay =
      ((c1_store.snapshots.filter (fun x => x.month == 1)).map
        (sop_term c1_store 0)).sum ∧
    (∀ (kam2 : KAM) (r2 : ScoreItem),
      score_kam_month c1_store kam2 (some 0) 1 = Except.ok r2 →
      r2.points_lost_sop_delay = c1_rec.points_lost_sop_delay)) := by
  have hok : score_kam_month c1_store c1_kamA (some 0) 1 = Except.ok c1_rec := by
    have h1 : ym_to_int? "2026-01" = some 24313 := by decide
    have h2 : ym_to_int? "2026-02" = some 24314 := by decide
    norm_num [score_kam_month, sop_loss_of, sop_delay_lossE, sop_step, promo_step,
      prev_proj_lookup, lastFind?, h1, h2, toE, mk_item, except_bind_ok,
      except_bind_error, gained_pp_of, gained_lvp_of, month_targets, vol_loss_of,
      pp_loss_of, inact_loss_of, promotions_of, added_pp_of, added_lvp_of,
      sum_pp_of, sum_lvp_of, prev_pp_of, prev_lvp_of, snaps_of, prev_snaps_of,
      kam_month_snaps, c1_store, c1_kamA, c1_rec, List.foldlM]
  exact ⟨hok, c1_sop_delay_is_global c1_store c1_kamA 0 1 c1_rec hok⟩

/-- KAM A of the two-KAM promotions store. -/
def c2_kamA : KAM := ⟨1, "A", "EU"⟩

/-- The record the engine emits for KAM A in month 1 of `c2_store`. -/
def c2_rec : ScoreItem :=
  { kam := "A", month := 1, points_gained_pp := 0, points_gained_lvp := 0,
    points_lost_sop_delay := 0, points_lost_volume_dec := 0,
    points_lost_pp_dec := 4, total := -104 }

/-- Claim C2 (amended): `promotions` sums the capped per-project lift
increases over ALL projects present in both months — including projects of
other KAMs — with each term capped by that project's previous `pp`; the
pp-decrease loss compares the KAM's own pp totals against that global
promotions figure. -/
theorem c2_promotions_global_and_capped (store : Store) (kam : KAM) (p m : Nat)
    (r : ScoreItem) (h : score_kam_month store kam (some p) m = Except.ok r) :
    promotions_of store (some p) m =
      ((store.snapshots.filter (fun x => x.month == m)).map
        (promo_term store p)).sum ∧
    (∀ (x prev : ProjectMonth),
      prev_proj_lookup store p x.project_id = some prev →
      promo_term store p x ≤ prev.pp) ∧
    r.points_lost_pp_dec =
      (if sum_pp_of store kam m + promotions_of store (some p) m <
          prev_pp_of store kam (some p) + added_pp_of store kam (some p) m then
        2 * (prev_pp_of store kam (some p) + added_pp_of store kam (some p) m -
          (sum_pp_of store kam m + promotions_of store (some p) m))
      else 0) := by
  obtain ⟨s, hs, hr⟩ := score_ok_elim h
  subst hr
  exact ⟨promotions_of_eq_sum store p m,
    fun x prev hx => promo_term_le_prev_pp hx, rfl⟩

/-- Claim C2 counterexample: in `c2_store` the lift increase comes entirely
from KAM B's project, yet it offsets KAM A's pp decrease: the emitted loss
is 4 where the claim's per-KAM promotions (0) would give 20. -/
theorem c2_counterexample :
    score_kam_month c2_store c2_kamA (some 0) 1 = Except.ok c2_rec ∧
    c2_rec.points_lost_pp_dec = 4 ∧
    ((kam_month_snaps c2_store c2_kamA.id 1).map (promo_term c2_store 0)).sum = 0 ∧
    prev_pp_of c2_store c2_kamA (some 0) = 50 ∧
    added_pp_of c2_store c2_kamA (some 0) 1 = 0 ∧
    sum_pp_of c2_store c2_kamA 1 = 40 ∧
    ((40 : ℚ) + 0 < 50 + 0 ∧ 2 * ((50 : ℚ) + 0 - (40 + 0)) = 20) ∧
    (4 : ℚ) ≠ 20 := by
  have h1 : ym_to_int? "2026-01" = some 24313 := by decide
  norm_num [score_kam_month, sop_loss_of, sop_delay_lossE, sop_step, promo_step,
    prev_proj_lookup, lastFind?, h1, toE, mk_item, except_bind_ok,
    except_bind_error, gained_pp_of, gained_lvp_of, month_targets, vol_loss_of,
    pp_loss_of, inact_loss_of, promotions_of, added_pp_of, added_lvp_of,
    sum_pp_of, sum_lvp_of, prev_pp_of, prev_lvp_of, snaps_of, prev_snaps_of,
    kam_month_snaps, promo_term, c2_store, c2_kamA, c2_rec, List.foldlM]

/-- Witness for the amended claim C2 at the two-KAM store. -/
theorem c2_witness :
    score_kam_month c2_store c2_kamA (some 0) 1 = Except.ok c2_rec ∧
    (promotions_of c2_store (some 0) 1 =
      ((c2_store.snapshots.filter (fun x => x.month == 1)).map
        (promo_term c2_store 0)).sum ∧
    (∀ (x prev : ProjectMonth),
      prev_proj_lookup c2_store 0 x.project_id = some prev →
      promo_term c2_store 0 x ≤ prev.pp) ∧
    c2_rec.points_lost_pp_dec =
      (if sum_pp_of c2_store c2_kamA 1 + promotions_of c2_store (some 0) 1 <
          prev_pp_of c2_store c2_kamA (some 0) +
            added_pp_of c2_store c2_kamA (some 0) 1 then
        2 * (prev_pp_of c2_store c2_kamA (some 0) +
          added_pp_of c2_store c2_kamA (some 0) 1 -
          (sum_pp_of c2_store c2_kamA 1 + promotions_of c2_store (some 0) 1))
      else 0)) := by
  have hok : score_kam_month c2_store c2_kamA (some 0) 1 = Except.ok c2_rec := by
    have h1 : ym_to_int? "2026-01" = some 24313 := by decide
    norm_num [score_kam_month, sop_loss_of, sop_delay_lossE, sop_step, promo_step,
      prev_proj_lookup, lastFind?, h1, toE, mk_item, except_bind_ok,
      except_bind_error, gained_pp_of, gained_lvp_of, month_targets, vol_loss_of,
      pp_loss_of, inact_loss_of, promotions_of, added_pp_of, added_lvp_of,
      sum_pp_of, sum_lvp_of, prev_pp_of, prev_lvp_of, snaps_of, prev_snaps_of,
      kam_month_snaps, c2_store, c2_kamA, c2_rec, List.foldlM]
  exact ⟨hok, c2_promotions_global_and_capped c2_store c2_kamA 0 1 c2_rec hok⟩

/-- Claim C5 (amended): every emitted record carries the KAM name, the
month, the two gain figures and three of the four loss figures; the
inactivity loss is not a field of the record and is only reflected in the
total. -/
theorem c5_record_carries_five (store : Store) (kam : KAM) (pm : Option Nat)
    (m : Nat) (r : ScoreItem)
    (h : score_kam_month store kam pm m = Except.ok r) :
    r.kam = kam.name ∧ r.month = m ∧
    r.points_gained_pp = gained_pp_of store kam pm m ∧
    r.points_gained_lvp = gained_lvp_of store kam pm m ∧
    sop_loss_of store pm m = Except.ok r.points_lost_sop_delay ∧
    r.points_lost_volume_dec = vol_loss_of store kam pm m ∧
    r.points_lost_pp_dec = pp_loss_of store kam pm m ∧
    r.total = r.points_gained_pp + r.points_gained_lvp -
      (r.points_lost_sop_delay + r.points_lost_volume_dec +
        r.points_lost_pp_dec + inact_loss_of store kam pm m) := by
  obtain ⟨s, hs, hr⟩ := score_ok_elim h
  subst hr
  exact ⟨rfl, rfl, rfl, rfl, hs, rfl, rfl, rfl⟩

/-- The two records the engine emits on `c5_store`. -/
def c5_rec0 : ScoreItem :=
  { kam := "A", month := 0, points_gained_pp := 0, points_gained_lvp := 0,
    points_lost_sop_delay := 0, points_lost_volume_dec := 0,
    points_lost_pp_dec := 0, total := 0 }

/-- Month-1 record of `c5_store`: all five carried components are 0 but
the total is -100 (the inactivity figure exists in no field). -/
def c5_rec1 : ScoreItem :=
  { kam := "A", month := 1, points_gained_pp := 0, points_gained_lvp := 0,
    points_lost_sop_delay := 0, points_lost_volume_dec := 0,
    points_lost_pp_dec := 0, total := -100 }

/-- Claim C5 counterexample: the emitted month-1 record of `c5_store`
cannot reconstruct its own total from the component fields it carries —
the inactivity figure is missing from the record. -/
theorem c5_counterexample :
    calc_scores c5_store = Except.ok ([c5_rec0, c5_rec1], [("A", -100)]) ∧
    c5_rec1.points_gained_pp + c5_rec1.points_gained_lvp -
      (c5_rec1.points_lost_sop_delay + c5_rec1.points_lost_volume_dec +
        c5_rec1.points_lost_pp_dec) ≠ c5_rec1.total := by
  have h1 : ym_to_int? "2026-01" = some 24313 := by decide
  norm_num [calc_scores, calc_months, calc_kams, score_kam_month, sop_loss_of,
    sop_delay_lossE, sop_step, promo_step, prev_proj_lookup, lastFind?, h1,
    toE, mk_item, gained_pp_of, gained_lvp_of, month_targets, except_bind_ok,
    except_bind_error, vol_loss_of, pp_loss_of, inact_loss_of, promotions_of,
    added_pp_of, added_lvp_of, sum_pp_of, sum_lvp_of, prev_pp_of, prev_lvp_of,
    snaps_of, prev_snaps_of, kam_month_snaps, sortMonths, withPrev, updateAssoc,
    lookupA, c5_store, c5_rec0, c5_rec1, List.foldlM, List.dedup_cons_of_mem,
    List.dedup_cons_of_not_mem, List.insertionSort, List.orderedInsert]

/-- Witness for the amended claim C5 at the month-1 record of `c5_store`. -/
theorem c5_witness :
    score_kam_month c5_store ⟨1, "A", "EU"⟩ (some 0) 1 = Except.ok c5_rec1 ∧
    (c5_rec1.kam = "A" ∧ c5_rec1.month = 1 ∧
    c5_rec1.points_gained_pp = gained_pp_of c5_store ⟨1, "A", "EU"⟩ (some 0) 1 ∧
    c5_rec1.points_gained_lvp = gained_lvp_of c5_store ⟨1, "A", "EU"⟩ (some 0) 1 ∧
    sop_loss_of c5_store (some 0) 1 = Except.ok c5_rec1.points_lost_sop_delay ∧
    c5_rec1.points_lost_volume_dec = vol_loss_of c5_store ⟨1, "A", "EU"⟩ (some 0) 1 ∧
    c5_rec1.points_lost_pp_dec = pp_loss_of c5_store ⟨1, "A", "EU"⟩ (some 0) 1 ∧
    c5_rec1.total = c5_rec1.points_gained_pp + c5_rec1.points_gained_lvp -
      (c5_rec1.points_lost_sop_delay + c5_rec1.points_lost_volume_dec +
        c5_rec1.points_lost_pp_dec +
        inact_loss_of c5_store ⟨1, "A", "EU"⟩ (some 0) 1)) := by
  have hok : score_kam_month c5_store ⟨1, "A", "EU"⟩ (some 0) 1 =
      Except.ok c5_rec1 := by
    have h1 : ym_to_int? "2026-01" = some 24313 := by decide
    norm_num [score_kam_month, sop_loss_of, sop_delay_lossE, sop_step, promo_step,
      prev_proj_lookup, lastFind?, h1, toE, mk_item, except_bind_ok,
      except_bind_error, gained_pp_of, gained_lvp_of, month_targets, vol_loss_of,
      pp_loss_of, inact_loss_of, promotions_of, added_pp_of, added_lvp_of,
      sum_pp_of, sum_lvp_of, prev_pp_of, prev_lvp_of, snaps_of, prev_snaps_of,
      kam_month_snaps, c5_store, c5_rec1, List.foldlM]
  exact ⟨hok, c5_record_carries_five c5_store ⟨1, "A", "EU"⟩ (some 0) 1 c5_rec1 hok⟩

/-- Claim C7: for every emitted score record, total equals gains minus the
four losses, and each of the six component figures (the inactivity figure
is computed though not emitted) is non-negative; only the total may be
negative. -/
theorem c7_total_formula_and_nonneg (store : Store) (kam : KAM)
    (pm : Option Nat) (m : Nat) (r : ScoreItem)
    (h : score_kam_month store kam pm m = Except.ok r) :
    r.total = r.points_gained_pp + r.points_gained_lvp -
      (r.points_lost_sop_delay + r.points_lost_volume_dec +
        r.points_lost_pp_dec + inact_loss_of store kam pm m) ∧
    0 ≤ r.points_gained_pp ∧ 0 ≤ r.points_gained_lvp ∧
    0 ≤ r.points_lost_sop_delay ∧ 0 ≤ r.points_lost_volume_dec ∧
    0 ≤ r.points_lost_pp_dec ∧ 0 ≤ inact_loss_of store kam pm m := by
  obtain ⟨s, hs, hr⟩ := score_ok_elim h
  subst hr
  exact ⟨rfl, gained_pp_of_nonneg store kam pm m, gained_lvp_of_nonneg store kam pm m,
    sop_loss_nonneg hs, vol_loss_of_nonneg store kam pm m,
    pp_loss_of_nonneg store kam pm m, inact_loss_of_nonneg store kam pm m⟩

/-- The record the engine emits for `c7_store` in its only month. -/
def c7_rec : ScoreItem :=
  { kam := "A", month := 0, points_gained_pp := 0, points_gained_lvp := 0,
    points_lost_sop_delay := 0, points_lost_volume_dec := 0,
    points_lost_pp_dec := 0, total := 0 }

/-- Witness for claim C7 at the single-snapshot store. -/
theorem c7_witness :
    score_kam_month c7_store ⟨1, "A", "EU"⟩ none 0 = Except.ok c7_rec ∧
    (c7_rec.total = c7_rec.points_gained_pp + c7_rec.points_gained_lvp -
      (c7_rec.points_lost_sop_delay + c7_rec.points_lost_volume_dec +
        c7_rec.points_lost_pp_dec + inact_loss_of c7_store ⟨1, "A", "EU"⟩ none 0) ∧
    0 ≤ c7_rec.points_gained_pp ∧ 0 ≤ c7_rec.points_gained_lvp ∧
    0 ≤ c7_rec.points_lost_sop_delay ∧ 0 ≤ c7_rec.points_lost_volume_dec ∧
    0 ≤ c7_rec.points_lost_pp_dec ∧
    0 ≤ inact_loss_of c7_store ⟨1, "A", "EU"⟩ none 0) := by
  have hok : score_kam_month c7_store ⟨1, "A", "EU"⟩ none 0 = Except.ok c7_rec := by
    norm_num [score_kam_month, sop_loss_of, sop_delay_lossE, sop_step, promo_step,
      prev_proj_lookup, lastFind?, toE, mk_item, except_bind_ok,
      except_bind_error, gained_pp_of, gained_lvp_of, month_targets, vol_loss_of,
      pp_loss_of, inact_loss_of, promotions_of, added_pp_of, added_lvp_of,
      sum_pp_of, sum_lvp_of, prev_pp_of, prev_lvp_of, snaps_of, prev_snaps_of,
      kam_month_snaps, c7_store, c7_rec, List.foldlM]
  exact ⟨hok, c7_total_formula_and_nonneg c7_store ⟨1, "A", "EU"⟩ none 0 c7_rec hok⟩

/-- Claim C10: a KAM scored in month `m` whose own previous-month snapshot
list is empty takes no volume-decrease, pp-decrease or inactivity loss,
provided the stored `pp` and `foc2026_sec` figures are non-negative as the
data model stipulates. -/
theorem c10_no_prev_snapshots_losses_zero (store : Store) (kam : KAM)
    (p m : Nat) (r : ScoreItem)
    (h : score_kam_month store kam (some p) m = Except.ok r)
    (hprev : kam_month_snaps store kam.id p = [])
    (hcur : kam_month_snaps store kam.id m ≠ [])
    (hnn : ∀ x ∈ store.snapshots, 0 ≤ x.pp ∧ 0 ≤ x.foc2026_sec) :
    r.points_lost_volume_dec = 0 ∧ r.points_lost_pp_dec = 0 ∧
    inact_loss_of store kam (some p) m = 0 := by
  obtain ⟨s, hs, hr⟩ := score_ok_elim h
  subst hr
  have hprevs : prev_snaps_of store kam (some p) = [] := hprev
  have hsub : ∀ x ∈ snaps_of store kam m, x ∈ store.snapshots := by
    intro x hx
    exact (List.mem_filter.mp hx).1
  refine ⟨?_, ?_, ?_⟩
  · show vol_loss_of store kam (some p) m = 0
    have hcurr : 0 ≤ ((snaps_of store kam m).map (fun x => x.foc2026_sec)).sum := by
      refine List.sum_nonneg ?_
      intro q hq
      rcases List.mem_map.mp hq with ⟨x, hx, hqq⟩
      rw [← hqq]
      exact (hnn x (hsub x hx)).2
    have h0 : ((prev_snaps_of store kam (some p)).map
        (fun x => x.foc2026_sec)).sum = 0 := by
      rw [hprevs]; simp
    simp only [vol_loss_of, h0]
    rw [if_neg (not_lt.mpr hcurr)]
  · show pp_loss_of store kam (some p) m = 0
    have hsum : 0 ≤ sum_pp_of store kam m := by
      refine List.sum_nonneg ?_
      intro q hq
      rcases List.mem_map.mp hq with ⟨x, hx, hqq⟩
      rw [← hqq]
      exact (hnn x (hsub x hx)).1
    have hprevpp : prev_pp_of store kam (some p) = 0 := by
      rw [prev_pp_of, hprevs]; simp
    have hadded : added_pp_of store kam (some p) m = sum_pp_of store kam m := by
      rw [added_pp_of, hprevpp, sub_zero, max_eq_right hsum]
    have hpromo : 0 ≤ promotions_of store (some p) m := by
      rw [promotions_of_eq_sum]
      refine List.sum_nonneg ?_
      intro q hq
      rcases List.mem_map.mp hq with ⟨x, _, hqq⟩
      rw [← hqq]
      exact promo_term_nonneg x (fun y hy => (hnn y hy).1)
    simp only [pp_loss_of, hprevpp, hadded, zero_add]
    rw [if_neg (not_lt.mpr (le_add_of_nonneg_right hpromo))]
  · obtain ⟨x, hx⟩ := List.exists_mem_of_ne_nil _ hcur
    have hnot : ¬ ((snaps_of store kam m).all (fun z =>
        (prev_snaps_of store kam (some p)).any
          (fun y => y.project_id == z.project_id)) = true) := by
      intro hall
      have hz := List.all_eq_true.mp hall x hx
      rw [hprevs] at hz
      simp at hz
    simp only [inact_loss_of]
    rw [if_neg hnot]

/-- The record the engine emits for KAM A in month 1 of `c10_store`. -/
def c10_rec : ScoreItem :=
  { kam := "A", month := 1, points_gained_pp := 0, points_gained_lvp := 0,
    points_lost_sop_delay := 0, points_lost_volume_dec := 0,
    points_lost_pp_dec := 0, total := 0 }

/-- Witness for claim C10: KAM A first appears in month 1 of `c10_store`. -/
theorem c10_witness :
    score_kam_month c10_store ⟨1, "A", "EU"⟩ (some 0) 1 = Except.ok c10_rec ∧
    kam_month_snaps c10_store 1 0 = [] ∧
    kam_month_snaps c10_store 1 1 ≠ [] ∧
    (∀ x ∈ c10_store.snapshots, 0 ≤ x.pp ∧ 0 ≤ x.foc2026_sec) ∧
    (c10_rec.points_lost_volume_dec = 0 ∧ c10_rec.points_lost_pp_dec = 0 ∧
      inact_loss_of c10_store ⟨1, "A", "EU"⟩ (some 0) 1 = 0) := by
  have hok : score_kam_month c10_store ⟨1, "A", "EU"⟩ (some 0) 1 =
      Except.ok c10_rec := by
    have h1 : ym_to_int? "2026-01" = some 24313 := by decide
    norm_num [score_kam_month, sop_loss_of, sop_delay_lossE, sop_step, promo_step,
      prev_proj_lookup, lastFind?, h1, toE, mk_item, except_bind_ok,
      except_bind_error, gained_pp_of, gained_lvp_of, month_targets, vol_loss_of,
      pp_loss_of, inact_loss_of, promotions_of, added_pp_of, added_lvp_of,
      sum_pp_of, sum_lvp_of, prev_pp_of, prev_lvp_of, snaps_of, prev_snaps_of,
      kam_month_snaps, c10_store, c10_rec, List.foldlM]
  have hprev : kam_month_snaps c10_store 1 0 = [] := by decide
  have hcur : kam_month_snaps c10_store 1 1 ≠ [] := by decide
  have hnn : ∀ x ∈ c10_store.snapshots, 0 ≤ x.pp ∧ 0 ≤ x.foc2026_sec := by decide
  exact ⟨hok, hprev, hcur, hnn,
    c10_no_prev_snapshots_losses_zero c10_store ⟨1, "A", "EU"⟩ 0 1 c10_rec
      hok hprev hcur hnn⟩

/-- Claim C3 counterexample: on the spec's own first-month example the
engine awards 40 lvp points (30 ≥ 1.3 × 20 = 26) and a total of 50, not
the 20 points and total 30 the example asserts. -/
theorem c3_counterexample :
    calc_scores c3_store = Except.ok
      ([{ kam := "Alice", month := 0, points_gained_pp := 10,
          points_gained_lvp := 40, points_lost_sop_delay := 0,
          points_lost_volume_dec := 0, points_lost_pp_dec := 0,
          total := 50 }], [("Alice", 50)]) ∧
    (40 : ℚ) ≠ 20 ∧ (50 : ℚ) ≠ 30 := by
  norm_num [calc_scores, calc_months, calc_kams, score_kam_month, sop_loss_of,
    sop_delay_lossE, sop_step, promo_step, prev_proj_lookup, lastFind?,
    toE, mk_item, gained_pp_of, gained_lvp_of, month_targets, except_bind_ok,
    except_bind_error, vol_loss_of, pp_loss_of, inact_loss_of, promotions_of,
    added_pp_of, added_lvp_of, sum_pp_of, sum_lvp_of, prev_pp_of, prev_lvp_of,
    snaps_of, prev_snaps_of, kam_month_snaps, sortMonths, withPrev, updateAssoc,
    lookupA, c3_store, List.foldlM, List.dedup_cons_of_mem,
    List.dedup_cons_of_not_mem, List.insertionSort, List.orderedInsert]

/-- Claim C3 (amended): on the first-month example store the engine awards
gain_pp = 10 and gain_lvp = 40 (since added_lvp = 30 exceeds
1.3 × 20 = 26), all four losses are 0, and total = 50. -/
theorem c3_first_month_example :
    calc_scores c3_store = Except.ok
      ([{ kam := "Alice", month := 0, points_gained_pp := 10,
          points_gained_lvp := 40, points_lost_sop_delay := 0,
          points_lost_volume_dec := 0, points_lost_pp_dec := 0,
          total := 50 }], [("Alice", 50)]) ∧
    gained_pp_of c3_store ⟨1, "Alice", "EU"⟩ none 0 = 10 ∧
    gained_lvp_of c3_store ⟨1, "Alice", "EU"⟩ none 0 = 40 ∧
    added_pp_of c3_store ⟨1, "Alice", "EU"⟩ none 0 = 50 ∧
    added_lvp_of c3_store ⟨1, "Alice", "EU"⟩ none 0 = 30 ∧
    inact_loss_of c3_store ⟨1, "Alice", "EU"⟩ none 0 = 0 := by
  norm_num [calc_scores, calc_months, calc_kams, score_kam_month, sop_loss_of,
    sop_delay_lossE, sop_step, promo_step, prev_proj_lookup, lastFind?,
    toE, mk_item, gained_pp_of, gained_lvp_of, month_targets, except_bind_ok,
    except_bind_error, vol_loss_of, pp_loss_of, inact_loss_of, promotions_of,
    added_pp_of, added_lvp_of, sum_pp_of, sum_lvp_of, prev_pp_of, prev_lvp_of,
    snaps_of, prev_snaps_of, kam_month_snaps, sortMonths, withPrev, updateAssoc,
    lookupA, c3_store, List.foldlM, List.dedup_cons_of_mem,
    List.dedup_cons_of_not_mem, List.insertionSort, List.orderedInsert]

/-- Claim C4 (amended): the inactivity loss is 100 exactly when every one
of the KAM's current project ids already appears among its previous-month
project ids (no brand-new project started), and 0 otherwise — not the
strict-superset test the claim states. -/
theorem c4_inactivity_no_new_project (store : Store) (kam : KAM) (p m : Nat) :
    inact_loss_of store kam (some p) m =
      if ∀ i ∈ (kam_month_snaps store kam.id m).map (fun x => x.project_id),
          i ∈ (kam_month_snaps store kam.id p).map (fun x => x.project_id)
      then 100 else 0 := by
  have hb : ((snaps_of store kam m).all (fun z =>
      (prev_snaps_of store kam (some p)).any
        (fun y => y.project_id == z.project_id)) = true) ↔
      (∀ i ∈ (kam_month_snaps store kam.id m).map (fun x => x.project_id),
        i ∈ (kam_month_snaps store kam.id p).map (fun x => x.project_id)) := by
    simp [snaps_of, prev_snaps_of, List.all_eq_true, List.any_eq_true,
      List.mem_map]
  by_cases hx : ∀ i ∈ (kam_month_snaps store kam.id m).map (fun x => x.project_id),
      i ∈ (kam_month_snaps store kam.id p).map (fun x => x.project_id)
  · rw [if_pos hx]
    show (if (snaps_of store kam m).all (fun z =>
        (prev_snaps_of store kam (some p)).any
          (fun y => y.project_id == z.project_id)) then (100 : ℚ) else 0) = 100
    rw [if_pos (hb.mpr hx)]
  · rw [if_neg hx]
    show (if (snaps_of store kam m).all (fun z =>
        (prev_snaps_of store kam (some p)).any
          (fun y => y.project_id == z.project_id)) then (100 : ℚ) else 0) = 0
    rw [if_neg (fun hc => hx (hb.mp hc))]

/-- Claim C4 counterexample: in `c4_store` month 1 the KAM's project set
gains id 2 but loses id 3, so it is not a (strict) superset of the
previous set — the claim demands a loss of 100 — yet the code, which only
checks for the absence of brand-new ids, assigns 0. -/
theorem c4_counterexample :
    inact_loss_of c4_store ⟨1, "A", "EU"⟩ (some 0) 1 = 0 ∧
    (3 : Nat) ∈ (kam_month_snaps c4_store 1 0).map (fun x => x.project_id) ∧
    (3 : Nat) ∉ (kam_month_snaps c4_store 1 1).map (fun x => x.project_id) ∧
    (0 : ℚ) ≠ 100 := by
  refine ⟨?_, by decide, by decide, by norm_num⟩
  norm_num [inact_loss_of, snaps_of, prev_snaps_of, kam_month_snaps, c4_store]

/-- Claim C8 (code-bug evidence): the token "2026/01" does not split into
two integer fragments, the inline parser fails on it, and the whole engine
run aborts with the propagated untyped exception — no per-record
MalformedDateToken data-integrity error exists anywhere in the code. -/
theorem c8_malformed_token_aborts :
    ym_to_int? "2026/01" = none ∧
    calc_scores c8_store =
      Except.error "ValueError: malformed sop_ym token" := by
  refine ⟨by decide, ?_⟩
  have h1 : ym_to_int? "2026-01" = some 24313 := by decide
  have h2 : ym_to_int? "2026/01" = none := by decide
  norm_num [calc_scores, calc_months, calc_kams, score_kam_month, sop_loss_of,
    sop_delay_lossE, sop_step, promo_step, prev_proj_lookup, lastFind?, h1, h2,
    toE, mk_item, gained_pp_of, gained_lvp_of, month_targets, except_bind_ok,
    except_bind_error, vol_loss_of, pp_loss_of, inact_loss_of, promotions_of,
    added_pp_of, added_lvp_of, sum_pp_of, sum_lvp_of, prev_pp_of, prev_lvp_of,
    snaps_of, prev_snaps_of, kam_month_snaps, sortMonths, withPrev, updateAssoc,
    lookupA, c8_store, List.foldlM, List.dedup_cons_of_mem,
    List.dedup_cons_of_not_mem, List.insertionSort, List.orderedInsert]

/-- What a successful whole-engine run guarantees: cumulative lookups are
the per-KAM record totals, and records exist exactly for months of the
global sequence in which a stored KAM has snapshots. -/
theorem calc_scores_spec (store : Store) (res : List ScoreItem) (cum : Cumul)
    (hok : calc_scores store = Except.ok (res, cum)) :
    (∀ k ∈ store.kams, lookupA cum k.name = some (totals_for k.name res)) ∧
    (∀ r ∈ res, ∃ pmm,
      pmm ∈ withPrev (sortMonths (store.snapshots.map (fun x => x.month))) ∧
      ∃ k2, k2 ∈ store.kams ∧ r.kam = k2.name ∧ r.month = pmm.2 ∧
        kam_month_snaps store k2.id pmm.2 ≠ [] ∧
        score_kam_month store k2 pmm.1 pmm.2 = Except.ok r) ∧
    (∀ pmm ∈ withPrev (sortMonths (store.snapshots.map (fun x => x.month))),
      ∀ k2 ∈ store.kams, kam_month_snaps store k2.id pmm.2 ≠ [] →
      ∃ r ∈ res, r.kam = k2.name ∧ r.month = pmm.2) := by
  have hok' : calc_months store
      (withPrev (sortMonths (store.snapshots.map (fun x => x.month))))
      ([], store.kams.map (fun j => (j.name, (0 : ℚ)))) =
      Except.ok (res, cum) := hok
  obtain ⟨new, h1, h2, h3, h4⟩ := calc_months_spec store _ _ _ hok'
  have hres : res = new := by simpa using h1
  subst hres
  refine ⟨?_, h3, h4⟩
  intro k hk
  have e2 : lookupA cum k.name =
      (lookupA (store.kams.map (fun j => (j.name, (0 : ℚ)))) k.name).map
        (fun w => w + totals_for k.name res) := h2 k.name
  rw [lookupA_init store.kams k hk] at e2
  simpa using e2

/-- Claim C6: the cumulative total of a stored KAM equals the sum of the
totals of exactly that KAM's emitted records; a record of the KAM exists
only for months where it has a snapshot, and for every month of the global
sequence where it has one; months without snapshots contribute nothing. -/
theorem c6_cumulative_is_running_sum (store : Store) (res : List ScoreItem)
    (cum : Cumul) (hok : calc_scores store = Except.ok (res, cum))
    (hnd : (store.kams.map (fun j => j.name)).Nodup)
    (k : KAM) (hk : k ∈ store.kams) :
    lookupA cum k.name = some (totals_for k.name res) ∧
    (∀ r ∈ res, r.kam = k.name → kam_month_snaps store k.id r.month ≠ []) ∧
    (∀ m ∈ sortMonths (store.snapshots.map (fun x => x.month)),
      kam_month_snaps store k.id m ≠ [] →
      ∃ r ∈ res, r.kam = k.name ∧ r.month = m) := by
  obtain ⟨g1, g2, g3⟩ := calc_scores_spec store res cum hok
  refine ⟨g1 k hk, ?_, ?_⟩
  · intro r hr hname
    obtain ⟨pmm, hpmm, k2, hk2, hname2, hmonth, hsnaps, _⟩ := g2 r hr
    have hkk : k2 = k :=
      List.inj_on_of_nodup_map hnd hk2 hk (by rw [← hname2, hname])
    rw [hmonth, ← hkk]
    exact hsnaps
  · intro m hm hsn
    obtain ⟨pmm, hpmm, hsnd⟩ := mem_withPrev hm
    obtain ⟨r, hrmem, hrk, hrm⟩ := g3 pmm hpmm k hk (by rw [hsnd]; exact hsn)
    exact ⟨r, hrmem, hrk, by rw [hrm, hsnd]⟩

/-- The record the engine emits on `c6_store`. -/
def c6_rec : ScoreItem :=
  { kam := "A", month := 0, points_gained_pp := 0, points_gained_lvp := 0,
    points_lost_sop_delay := 0, points_lost_volume_dec := 0,
    points_lost_pp_dec := 0, total := 0 }

/-- Witness for claim C6 at the single-snapshot store. -/
theorem c6_witness :
    calc_scores c6_store = Except.ok ([c6_rec], [("A", 0)]) ∧
    (c6_store.kams.map (fun j => j.name)).Nodup ∧
    (⟨1, "A", "EU"⟩ : KAM) ∈ c6_store.kams ∧
    (lookupA [("A", 0)] "A" = some (totals_for "A" [c6_rec]) ∧
    (∀ r ∈ [c6_rec], r.kam = "A" → kam_month_snaps c6_store 1 r.month ≠ []) ∧
    (∀ m ∈ sortMonths (c6_store.snapshots.map (fun x => x.month)),
      kam_month_snaps c6_store 1 m ≠ [] →
      ∃ r ∈ [c6_rec], r.kam = "A" ∧ r.month = m)) := by
  have hok : calc_scores c6_store = Except.ok ([c6_rec], [("A", 0)]) := by
    norm_num [calc_scores, calc_months, calc_kams, score_kam_month, sop_loss_of,
      sop_delay_lossE, sop_step, promo_step, prev_proj_lookup, lastFind?,
      toE, mk_item, gained_pp_of, gained_lvp_of, month_targets, except_bind_ok,
      except_bind_error, vol_loss_of, pp_loss_of, inact_loss_of, promotions_of,
      added_pp_of, added_lvp_of, sum_pp_of, sum_lvp_of, prev_pp_of, prev_lvp_of,
      snaps_of, prev_snaps_of, kam_month_snaps, sortMonths, withPrev, updateAssoc,
      lookupA, c6_store, c6_rec, List.foldlM, List.dedup_cons_of_mem,
      List.dedup_cons_of_not_mem, List.insertionSort, List.orderedInsert]
  exact ⟨hok, by decide, by decide,
    c6_cumulative_is_running_sum c6_store [c6_rec] [("A", 0)] hok (by decide)
      ⟨1, "A", "EU"⟩ (by decide)⟩

/-- Claim C9: the returned cumulative mapping has an entry for every KAM
in the store, and a KAM with no snapshot in any month of the global
sequence keeps the entry value 0 while no record is emitted for it. -/
theorem c9_entry_for_every_kam (store : Store) (res : List ScoreItem)
    (cum : Cumul) (hok : calc_scores store = Except.ok (res, cum))
    (hnd : (store.kams.map (fun j => j.name)).Nodup)
    (k : KAM) (hk : k ∈ store.kams) :
    (∃ v, lookupA cum k.name = some v) ∧
    ((∀ m ∈ sortMonths (store.snapshots.map (fun x => x.month)),
        kam_month_snaps store k.id m = []) →
      lookupA cum k.name = some 0 ∧ ∀ r ∈ res, r.kam ≠ k.name) := by
  obtain ⟨g1, g2, _⟩ := calc_scores_spec store res cum hok
  refine ⟨⟨totals_for k.name res, g1 k hk⟩, ?_⟩
  intro hall
  have hnorec : ∀ r ∈ res, r.kam ≠ k.name := by
    intro r hr hname
    obtain ⟨pmm, hpmm, k2, hk2, hname2, _, hsnaps, _⟩ := g2 r hr
    have hkk : k2 = k :=
      List.inj_on_of_nodup_map hnd hk2 hk (by rw [← hname2, hname])
    rw [hkk] at hsnaps
    exact hsnaps (hall pmm.2 (withPrev_snd_mem hpmm))
  have hzero : totals_for k.name res = 0 := by
    have hfil : res.filter (fun r => r.kam == k.name) = [] := by
      refine List.filter_eq_nil_iff.mpr ?_
      intro r hr
      simpa using hnorec r hr
    rw [totals_for, hfil]
    rfl
  refine ⟨by rw [g1 k hk, hzero], hnorec⟩

/-- The record the engine emits on `c9_store`. -/
def c9_rec : ScoreItem :=
  { kam := "A", month := 0, points_gained_pp := 0, points_gained_lvp := 0,
    points_lost_sop_delay := 0, points_lost_volume_dec := 0,
    points_lost_pp_dec := 0, total := 0 }

/-- Witness for claim C9: KAM B of `c9_store` never has a snapshot and
keeps cumulative entry 0. -/
theorem c9_witness :
    calc_scores c9_store = Except.ok ([c9_rec], [("A", 0), ("B", 0)]) ∧
    (c9_store.kams.map (fun j => j.name)).Nodup ∧
    (⟨2, "B", "EU"⟩ : KAM) ∈ c9_store.kams ∧
    ((∃ v, lookupA [("A", 0), ("B", 0)] "B" = some v) ∧
    ((∀ m ∈ sortMonths (c9_store.snapshots.map (fun x => x.month)),
        kam_month_snaps c9_store 2 m = []) →
      lookupA [("A", 0), ("B", 0)] "B" = some 0 ∧
      ∀ r ∈ [c9_rec], r.kam ≠ "B")) := by
  have hok : calc_scores c9_store = Except.ok
      ([c9_rec], [("A", 0), ("B", 0)]) := by
    norm_num [calc_scores, calc_months, calc_kams, score_kam_month, sop_loss_of,
      sop_delay_lossE, sop_step, promo_step, prev_proj_lookup, lastFind?,
      toE, mk_item, gained_pp_of, gained_lvp_of, month_targets, except_bind_ok,
      except_bind_error, vol_loss_of, pp_loss_of, inact_loss_of, promotions_of,
      added_pp_of, added_lvp_of, sum_pp_of, sum_lvp_of, prev_pp_of, prev_lvp_of,
      snaps_of, prev_snaps_of, kam_month_snaps, sortMonths, withPrev, updateAssoc,
      lookupA, c9_store, c9_rec, List.foldlM, List.dedup_cons_of_mem,
      List.dedup_cons_of_not_mem, List.insertionSort, List.orderedInsert]
  exact ⟨hok, by decide, by decide,
    c9_entry_for_every_kam c9_store _ _ hok (by decide) ⟨2, "B", "EU"⟩ (by decide)⟩

end KamScore
